import Mathlib

/-!
Verification of the core of the excel-sheet-analysis pipeline: a shallow
embedding in Lean 4 of the self-correcting generation loop and its
components, translated from the Python source.

Components embedded here:
* `DataValidator` (src/validator/data_validator.py): `validate`,
  `_validate_schema`, `_compare_values`, `_values_match`,
  `_calculate_difference`.
* `CodeRunner.execute` (src/executor/runner.py).
* `PatternLibrary.find_similar_pattern` (src/learning/pattern_library.py).
* The correction loop of `PipelineOrchestrator.run`
  (src/core/orchestrator.py).

Modelling conventions:
* Cell values are the value universe of the data model: integer, float,
  string, absent/null.  Python floats are modelled as rationals, so the
  tolerance 1e-6 is the exact rational 1/1000000.
* A pandas DataFrame is modelled as an ordered column list, a parallel
  dtype list and a row-major list of rows; row labels are positional
  (the default RangeIndex produced by read_excel / reset output frames).
* A pandas lookup that would raise (KeyError on a missing row label)
  is modelled by an `Option` result being `none`; a Python function that
  can raise an exception to its caller returns an `Option`/`Except`.
* Logging and string formatting (the `message`/`summary` report fields)
  carry no information used by any property and are omitted; the report
  fields that the Python schema-failure branch leaves out of its dict
  are `Option`-valued and set to `none` on that branch.
-/

set_option autoImplicit false

namespace ExcelPipeline

/-- The cell value universe {integer, float, string, absent/null}. -/
inductive Value where
  | vInt (n : Int)
  | vFloat (q : Rat)
  | vStr (s : String)
  | vNull
  deriving DecidableEq, Repr

namespace Value

/-- Python `isinstance(v, (int, float))`. -/
def isNumeric : Value → Bool
  | vInt _ => true
  | vFloat _ => true
  | _ => false

/-- Python `pd.isna(v)`: true exactly on the absent/null value. -/
def isna : Value → Bool
  | vNull => true
  | _ => false

/-- Numeric content of a value (only meaningful when `isNumeric`). -/
def toRat : Value → Rat
  | vInt n => (n : Rat)
  | vFloat q => q
  | _ => 0

/-- Python `type(v1) == type(v2)`. -/
def sameType : Value → Value → Bool
  | vInt _, vInt _ => true
  | vFloat _, vFloat _ => true
  | vStr _, vStr _ => true
  | vNull, vNull => true
  | _, _ => false

end Value

/-- Column dtypes: integer, floating point, or object/string. -/
inductive Dtype where
  | dtInt
  | dtFloat
  | dtObject
  deriving DecidableEq, Repr

/-- Python `pd.api.types.is_numeric_dtype`. -/
def Dtype.isNumeric : Dtype → Bool
  | .dtInt => true
  | .dtFloat => true
  | .dtObject => false

/-- A DataFrame: ordered named columns with per-column dtypes and
row-major rows of cell values. -/
structure DataFrame where
  columns : List String
  dtypes : List Dtype
  rows : List (List Value)
  deriving DecidableEq, Repr

namespace DataFrame

/-- Position of a column name in the column sequence. -/
def colIdx? (df : DataFrame) (col : String) : Option Nat :=
  df.columns.findIdx? (· = col)

/-- Python `df.loc[idx, col]`; `none` models the KeyError raised when
the row label or column is absent. -/
def cell? (df : DataFrame) (idx : Nat) (col : String) : Option Value :=
  match df.colIdx? col, df.rows.get? idx with
  | some j, some row => row.get? j
  | _, _ => none

/-- Python `df[col].dtype`. -/
def dtypeOf? (df : DataFrame) (col : String) : Option Dtype :=
  match df.colIdx? col with
  | some j => df.dtypes.get? j
  | none => none

/-- The dtype list is aligned with the columns and every row is
rectangular (pandas cannot represent a ragged frame). -/
def WellFormed (df : DataFrame) : Prop :=
  df.dtypes.length = df.columns.length ∧
    ∀ row ∈ df.rows, row.length = df.columns.length

end DataFrame

/-- DataValidator._values_match. -/
def valuesMatch (val1 val2 : Value) (tolerance : Rat := 1/1000000) : Bool :=
  if !Value.sameType val1 val2 && !(val1.isNumeric && val2.isNumeric) then
    false
  else if val1.isNumeric && val2.isNumeric then
    decide (|val1.toRat - val2.toRat| ≤ tolerance)
  else
    val1 == val2

/-- DataValidator._calculate_difference. -/
def calculateDifference (val1 val2 : Value) : Option Rat :=
  if val1.isNumeric && val2.isNumeric then
    some (val1.toRat - val2.toRat)
  else
    none

/-- One entry of the mismatches list built by
DataValidator._compare_values. -/
structure Mismatch where
  row : Nat
  column : String
  expected : Value
  actual : Value
  difference : Option Rat
  deriving DecidableEq, Repr

/-- Inner loop of DataValidator._compare_values: one row label `idx`,
scanning the given column names in order.  Returns the number of
matching cells and the mismatches in traversal order; `none` models a
KeyError from a `.loc` lookup. -/
def compareCells (df1 df2 : DataFrame) (idx : Nat) :
    List String → Option (Nat × List Mismatch)
  | [] => some (0, [])
  | col :: cols =>
    match df1.cell? idx col, df2.cell? idx col with
    | some val1, some val2 =>
      match compareCells df1 df2 idx cols with
      | some (matching, ms) =>
        if val1.isna && val2.isna then
          some (matching + 1, ms)
        else if valuesMatch val1 val2 then
          some (matching + 1, ms)
        else
          some (matching,
            { row := idx, column := col, expected := val2, actual := val1,
              difference := calculateDifference val1 val2 } :: ms)
      | none => none
    | _, _ => none

/-- Outer loop of DataValidator._compare_values over the row labels of
`df1`, in order. -/
def compareRowRange (df1 df2 : DataFrame) :
    List Nat → Option (Nat × List Mismatch)
  | [] => some (0, [])
  | idx :: rest =>
    match compareCells df1 df2 idx df1.columns,
          compareRowRange df1 df2 rest with
    | some (m1, ms1), some (m2, ms2) => some (m1 + m2, ms1 ++ ms2)
    | _, _ => none

/-- DataValidator._compare_values: `df1` is the generated frame, `df2`
the ground truth; iterates `df1.index × df1.columns`.  Accuracy is
matching cells over `df1.shape[0] * df1.shape[1]`, defined as 0 when the
frame has no cells. -/
def compareValues (df1 df2 : DataFrame) : Option (Rat × List Mismatch) :=
  let totalCells := df1.rows.length * df1.columns.length
  match compareRowRange df1 df2 (List.range df1.rows.length) with
  | some (matchingCells, mismatches) =>
    some (if 0 < totalCells then
            (matchingCells : Rat) / (totalCells : Rat)
          else 0,
          mismatches)
  | none => none

/-- Per-column body of the dtype loop in DataValidator._validate_schema:
true when the loop appends a type-mismatch error for `col`.  Columns
absent from `df1` are skipped; two numeric dtypes are compatible. -/
def columnTypeError (df1 df2 : DataFrame) (col : String) : Bool :=
  if df1.columns.contains col then
    match df2.dtypeOf? col, df1.dtypeOf? col with
    | some expectedType, some actualType =>
      if expectedType.isNumeric && actualType.isNumeric then
        false
      else
        decide (expectedType ≠ actualType)
    | _, _ => false
  else
    false

/-- DataValidator._validate_schema: a column-sequence error first, then
one error per type-mismatched column of `df2`, in column order. -/
def validateSchema (df1 df2 : DataFrame) : Bool × List String :=
  let errors :=
    (if df1.columns = df2.columns then [] else ["Column mismatch"]) ++
      (df2.columns.filter (columnTypeError df1 df2)).map
        (fun col => "Column type mismatch: " ++ col)
  (errors.isEmpty, errors)

/-- The validation report dictionary.  Fields that the schema-failure
branch of the Python code leaves out of its dict are `Option`-valued. -/
structure ValidationReport where
  passed : Bool
  schema_match : Bool
  schema_errors : Option (List String)
  row_count_match : Option Bool
  rows_expected : Option Nat
  rows_actual : Option Nat
  value_accuracy : Rat
  accuracy_threshold : Option Rat
  mismatches_count : Option Nat
  mismatches_sample : Option (List Mismatch)
  deriving DecidableEq, Repr

/-- The dict returned by the schema-failure branch of
DataValidator.validate: passed false, schema_match false, the schema
errors, value_accuracy 0.0, and no row-count or mismatch keys. -/
def schemaFailureReport (schemaErrors : List String) : ValidationReport :=
  { passed := false
    schema_match := false
    schema_errors := some schemaErrors
    row_count_match := none
    rows_expected := none
    rows_actual := none
    value_accuracy := 0
    accuracy_threshold := none
    mismatches_count := none
    mismatches_sample := none }

/-- The report dict built at the end of DataValidator.validate:
passed is schema_valid and row_count_match and accuracy at least the
threshold; the mismatch sample is the first 20 mismatches. -/
def successPathReport (schemaValid rowCountMatch : Bool)
    (threshold accuracy : Rat) (rowsExpected rowsActual : Nat)
    (mismatches : List Mismatch) : ValidationReport :=
  { passed := schemaValid && rowCountMatch && decide (threshold ≤ accuracy)
    schema_match := schemaValid
    schema_errors := none
    row_count_match := some rowCountMatch
    rows_expected := some rowsExpected
    rows_actual := some rowsActual
    value_accuracy := accuracy
    accuracy_threshold := some threshold
    mismatches_count := some mismatches.length
    mismatches_sample := some (mismatches.take 20) }

/-- DataValidator.validate on the full-comparison path (the default
`sample_size=None`; the sampling path draws random indices and is not
modelled).  The ground-truth frame stands for the frame read from the
ground-truth path.  A `none` result models the call raising (KeyError
from `_compare_values` when the generated frame has a row label absent
from the truth frame). -/
def validate (accuracyThreshold : Rat) (generated truth : DataFrame) :
    Option ValidationReport :=
  let schemaResult := validateSchema generated truth
  if schemaResult.1 then
    match compareValues generated truth with
    | some (accuracy, mismatches) =>
      some (successPathReport schemaResult.1
        (generated.rows.length == truth.rows.length)
        accuracyThreshold accuracy truth.rows.length generated.rows.length
        mismatches)
    | none => none
  else
    some (schemaFailureReport schemaResult.2)

/-- Observable behaviour of one candidate program run by
CodeRunner.execute: the source may fail to load or raise while being
executed at module level (including a syntax error), the namespace may
lack a main entry point, main may raise, main may return a value that
is not a DataFrame, or main may return a DataFrame. -/
inductive ProgramBehavior where
  | loadFailure (msg : String)
  | missingMain
  | mainRaises (msg : String)
  | returnsNonTable
  | returnsTable (df : DataFrame)
  deriving DecidableEq, Repr

/-- Whether the candidate run produces a DataFrame. -/
def ProgramBehavior.producesTable : ProgramBehavior → Bool
  | .returnsTable _ => true
  | _ => false

/-- The tuple returned by CodeRunner.execute:
(success, result_dataframe, error_message). -/
structure ExecResult where
  success : Bool
  result : Option DataFrame
  errorMessage : String
  deriving DecidableEq, Repr

/-- CodeRunner.execute (src/executor/runner.py): every failure path
raises inside the try block and the except handler converts it to
(False, None, "Execution failed: " ++ str(e)).  The two ValueErrors the
function raises itself carry the messages written in the source. -/
def execute : ProgramBehavior → ExecResult
  | .loadFailure msg =>
    { success := false, result := none,
      errorMessage := "Execution failed: " ++ msg }
  | .missingMain =>
    { success := false, result := none,
      errorMessage :=
        "Execution failed: Generated code does not contain a main() function" }
  | .mainRaises msg =>
    { success := false, result := none,
      errorMessage := "Execution failed: " ++ msg }
  | .returnsNonTable =>
    { success := false, result := none,
      errorMessage :=
        "Execution failed: main() function did not return a DataFrame" }
  | .returnsTable df =>
    { success := true, result := some df, errorMessage := "" }

/-- Outcome of one pass of the correction loop body: the executor call
fails, or it succeeds and validation fails, or it succeeds and
validation passes, or an exception escapes the loop body altogether —
the executor call on this pass has happened but validate (reachable:
its KeyError on generated row labels absent from the reference) or the
optimizer's oracle call raises, and the only handler is the catch-all
wrapped around the whole pipeline, outside the loop. -/
inductive IterOutcome where
  | execFailure
  | validationFailed
  | validationPassed
  | bodyRaises
  deriving DecidableEq, Repr

/-- Result of the correction loop: final value of the iteration
counter, number of CodeRunner.execute invocations, whether
validation_passed ended true, and whether the loop was exited by an
exception escaping its body to the orchestrator's catch-all. -/
structure LoopResult where
  iterations : Nat
  executorCalls : Nat
  success : Bool
  raised : Bool
  deriving DecidableEq, Repr

/-- Body of the while loop of PipelineOrchestrator.run, structurally
recursive on remaining = max_iterations - iteration (the loop variant:
iteration increases by exactly 1 per pass).  remaining = 0 is the while
condition iteration < max_iterations failing; outcome it is what the
pass with iteration counter it observes; the execFailure branch with
no budget left is the break at line 146, and with budget left the
continue after optimization; the validationFailed branch falls through
to the while condition after optimizing (or after recording the final
failure when the budget is spent, which the next condition check
terminates); the bodyRaises branch is an exception thrown inside the
loop body after the executor call, which leaves the loop at once for
the catch-all around the pipeline, regardless of remaining budget. -/
def correctionLoopAux (outcome : Nat → IterOutcome) :
    Nat → Nat → LoopResult
  | iteration, 0 =>
    { iterations := iteration, executorCalls := 0, success := false,
      raised := false }
  | iteration, r + 1 =>
    let it := iteration + 1
    match outcome it with
    | .validationPassed =>
      { iterations := it, executorCalls := 1, success := true,
        raised := false }
    | .bodyRaises =>
      { iterations := it, executorCalls := 1, success := false,
        raised := true }
    | .execFailure =>
      if r = 0 then
        { iterations := it, executorCalls := 1, success := false,
          raised := false }
      else
        let res := correctionLoopAux outcome it r
        { res with executorCalls := res.executorCalls + 1 }
    | .validationFailed =>
      let res := correctionLoopAux outcome it r
      { res with executorCalls := res.executorCalls + 1 }

/-- The correction loop of PipelineOrchestrator.run (lines 133-146 and
onward): iteration starts at 0, validation_passed at false. -/
def correctionLoop (outcome : Nat → IterOutcome) (maxIterations : Nat) :
    LoopResult :=
  correctionLoopAux outcome 0 maxIterations

/-- A stored transformation pattern (the fields
PatternLibrary.find_similar_pattern reads and writes;
source_characteristics entries are dict.get results, hence
Option-valued). -/
structure Pattern where
  pattern_id : String
  layout_type : Option String
  fact_type : Option String
  transformation_code : String
  usage_count : Nat
  deriving DecidableEq, Repr

/-- One pattern file in the library directory: readable JSON, or a
corrupted/unreadable record on which load_json raises. -/
inductive PatternRecord where
  | ok (p : Pattern)
  | corrupt
  deriving DecidableEq, Repr

/-- Scan of the pattern files in PatternLibrary.find_similar_pattern:
load each record (load_json raising on a corrupted one propagates, as
Except.error); on the first record whose layout_type and fact_type both
equal the query, increment usage_count, persist the updated record
(save_json) and return the pattern.  Returns the lookup result together
with the post-call store. -/
def findSimilarPatternAux (newLayout newFact : Option String) :
    List PatternRecord → Except String (Option Pattern × List PatternRecord)
  | [] => .ok (none, [])
  | .corrupt :: _ => .error "failed to load pattern record"
  | .ok p :: rest =>
    if p.layout_type = newLayout ∧ p.fact_type = newFact then
      let p' := { p with usage_count := p.usage_count + 1 }
      .ok (some p', .ok p' :: rest)
    else
      match findSimilarPatternAux newLayout newFact rest with
      | .ok (result, rest') => .ok (result, .ok p :: rest')
      | .error e => .error e

/-- PatternLibrary.find_similar_pattern: the missing-directory and
no-pattern-files early returns coincide with the scan of an empty
store. -/
def findSimilarPattern (store : List PatternRecord)
    (newLayout newFact : Option String) :
    Except String (Option Pattern × List PatternRecord) :=
  findSimilarPatternAux newLayout newFact store

/-! Concrete frames and records used to instantiate the theorems. -/

/-- A one-cell integer frame. -/
def dfUnit : DataFrame := ⟨["a"], [.dtInt], [[.vInt 1]]⟩

/-- A one-column frame with an empty row list. -/
def dfEmpty : DataFrame := ⟨["a"], [.dtInt], []⟩

/-- One integer cell holding 5 (ground truth for a mismatch). -/
def dfFive : DataFrame := ⟨["a"], [.dtInt], [[.vInt 5]]⟩

/-- Columns y, x (the reordered result frame). -/
def dfYX : DataFrame := ⟨["y", "x"], [.dtInt, .dtInt], [[.vInt 1, .vInt 2]]⟩

/-- Columns x, y (the reference frame). -/
def dfXY : DataFrame := ⟨["x", "y"], [.dtInt, .dtInt], [[.vInt 2, .vInt 1]]⟩

/-- A two-row single-float-column frame. -/
def g9 : DataFrame := ⟨["v"], [.dtFloat], [[.vFloat 1], [.vFloat 2]]⟩

/-- A one-row single-float-column frame with the same schema as g9. -/
def t9 : DataFrame := ⟨["v"], [.dtFloat], [[.vFloat 1]]⟩

/-- Generated frame holding the float 1. -/
def g7 : DataFrame := ⟨["v"], [.dtFloat], [[.vFloat 1]]⟩

/-- Truth frame holding the float 3. -/
def t7 : DataFrame := ⟨["v"], [.dtFloat], [[.vFloat 3]]⟩

/-- The mismatch recorded when comparing g7 against t7. -/
def m7 : Mismatch :=
  { row := 0, column := "v", expected := .vFloat 3, actual := .vFloat 1,
    difference := some (-2) }

/-- The mismatch recorded when comparing dfUnit against dfFive. -/
def mFive : Mismatch :=
  { row := 0, column := "a", expected := .vInt 5, actual := .vInt 1,
    difference := some (-4) }

/-- The report produced by validating dfUnit against itself at
threshold 99/100. -/
def rUnit : ValidationReport :=
  { passed := true, schema_match := true, schema_errors := none,
    row_count_match := some true, rows_expected := some 1,
    rows_actual := some 1, value_accuracy := 1,
    accuracy_threshold := some (99/100), mismatches_count := some 0,
    mismatches_sample := some [] }

/-- The report produced by validating dfEmpty against dfUnit at
threshold 99/100. -/
def rEmpty : ValidationReport :=
  { passed := false, schema_match := true, schema_errors := none,
    row_count_match := some false, rows_expected := some 1,
    rows_actual := some 0, value_accuracy := 0,
    accuracy_threshold := some (99/100), mismatches_count := some 0,
    mismatches_sample := some [] }

/-- A stored pattern with signature (grid, financial). -/
def pDemo : Pattern :=
  { pattern_id := "p1", layout_type := some "grid",
    fact_type := some "financial", transformation_code := "code",
    usage_count := 0 }

/-! Theorems. -/

/-- Invariant of the correction loop body: over a pass budget of
remaining passes starting at the given iteration counter, the executor
is called at most remaining times, the final iteration counter equals
the start plus the number of executor calls, success implies a clean
exit on a passing validation, an exception exit implies the final pass
raised out of the body, and every other unsuccessful exit consumed the
whole budget. -/
theorem correctionLoopAux_spec (outcome : Nat → IterOutcome) :
    ∀ remaining iteration,
      (correctionLoopAux outcome iteration remaining).executorCalls ≤ remaining ∧
      (correctionLoopAux outcome iteration remaining).iterations =
        iteration + (correctionLoopAux outcome iteration remaining).executorCalls ∧
      ((correctionLoopAux outcome iteration remaining).success = true →
        (correctionLoopAux outcome iteration remaining).raised = false ∧
        outcome (correctionLoopAux outcome iteration remaining).iterations =
          .validationPassed) ∧
      ((correctionLoopAux outcome iteration remaining).raised = true →
        (correctionLoopAux outcome iteration remaining).success = false ∧
        outcome (correctionLoopAux outcome iteration remaining).iterations =
          .bodyRaises) ∧
      ((correctionLoopAux outcome iteration remaining).success = false →
        (correctionLoopAux outcome iteration remaining).raised = true ∨
        (correctionLoopAux outcome iteration remaining).iterations =
          iteration + remaining) := by
  intro remaining
  induction remaining with
  | zero => intro iteration; simp [correctionLoopAux]
  | succ r ih =>
    intro iteration
    simp only [correctionLoopAux]
    cases h : outcome (iteration + 1) with
    | validationPassed =>
      dsimp only
      refine ⟨by omega, by omega, fun _ => ⟨rfl, ?_⟩, by simp, by simp⟩
      simpa using h
    | bodyRaises =>
      dsimp only
      refine ⟨by omega, by omega, by simp, fun _ => ⟨rfl, ?_⟩, ?_⟩
      · simpa using h
      · intro _
        left
        rfl
    | execFailure =>
      dsimp only
      by_cases hr : r = 0
      · subst hr
        refine ⟨?_, ?_, ?_, ?_, ?_⟩ <;> simp
      · obtain ⟨h1, h2, h3, h4, h5⟩ := ih (iteration + 1)
        simp only [if_neg hr]
        refine ⟨by omega, by omega, ?_, ?_, ?_⟩
        · intro hs; exact h3 hs
        · intro hs; exact h4 hs
        · intro hs
          rcases h5 hs with hrse | hlen
          · exact Or.inl hrse
          · right; omega
    | validationFailed =>
      dsimp only
      obtain ⟨h1, h2, h3, h4, h5⟩ := ih (iteration + 1)
      refine ⟨by omega, by omega, ?_, ?_, ?_⟩
      · intro hs; exact h3 hs
      · intro hs; exact h4 hs
      · intro hs
        rcases h5 hs with hrse | hlen
        · exact Or.inl hrse
        · right; omega

/-- C1 counterexample: with a budget of 5 passes, a pass whose body
raises (the executor call succeeded, then validate raised — reachable
per the KeyError refuting C9, or the optimizer's oracle call failed)
leaves the loop through the orchestrator's catch-all after a single
executor invocation: the loop has terminated with no passing validation
and with 4 passes of budget remaining, an exit the claim rules out. -/
theorem correction_loop_exception_counterexample :
    (correctionLoop (fun _ => IterOutcome.bodyRaises) 5).success = false ∧
    (correctionLoop (fun _ => IterOutcome.bodyRaises) 5).raised = true ∧
    (correctionLoop (fun _ => IterOutcome.bodyRaises) 5).executorCalls = 1 ∧
    (correctionLoop (fun _ => IterOutcome.bodyRaises) 5).iterations = 1 ∧
    1 < 5 := by
  refine ⟨rfl, rfl, rfl, rfl, by omega⟩

/-- C1 as amended: for every job, the correction loop invokes the
Executor at most max_iterations times (one invocation per pass of the
loop); apart from an exception escaping the loop body — which the
orchestrator's catch-all turns into an aborted job, possibly with
budget remaining — the loop terminates only by a passing validation or
by exhausting the iteration budget: every run ends successful with the
final pass's validation passing, or aborted with the final pass raising
out of the body, or unsuccessful having spent exactly max_iterations
executor invocations. -/
theorem correction_loop_iteration_budget (outcome : Nat → IterOutcome)
    (maxIterations : Nat) :
    (correctionLoop outcome maxIterations).executorCalls ≤ maxIterations ∧
    (correctionLoop outcome maxIterations).iterations =
      (correctionLoop outcome maxIterations).executorCalls ∧
    ((correctionLoop outcome maxIterations).success = true ∧
        (correctionLoop outcome maxIterations).raised = false ∧
        outcome (correctionLoop outcome maxIterations).iterations =
          .validationPassed ∨
      (correctionLoop outcome maxIterations).success = false ∧
        (correctionLoop outcome maxIterations).raised = true ∧
        outcome (correctionLoop outcome maxIterations).iterations =
          .bodyRaises ∨
      (correctionLoop outcome maxIterations).success = false ∧
        (correctionLoop outcome maxIterations).raised = false ∧
        (correctionLoop outcome maxIterations).executorCalls =
          maxIterations) := by
  obtain ⟨h1, h2, h3, h4, h5⟩ := correctionLoopAux_spec outcome maxIterations 0
  unfold correctionLoop
  refine ⟨h1, by omega, ?_⟩
  cases hs : (correctionLoopAux outcome 0 maxIterations).success
  · cases hrs : (correctionLoopAux outcome 0 maxIterations).raised
    · right; right
      refine ⟨rfl, rfl, ?_⟩
      rcases h5 hs with hrse | hlen
      · rw [hrs] at hrse; exact Bool.noConfusion hrse
      · omega
    · right; left
      exact ⟨rfl, rfl, (h4 hrs).2⟩
  · left
    obtain ⟨hr0, hout⟩ := h3 hs
    exact ⟨rfl, hr0, hout⟩

/-- C2: every candidate-program failure (unreadable or invalid source,
a missing main entry point, an exception from the candidate code, or a
non-DataFrame return value) makes execute return a failure outcome:
success is false, no result table, and a non-empty error message. -/
theorem execute_failure_contained (b : ProgramBehavior)
    (h : b.producesTable = false) :
    (execute b).success = false ∧ (execute b).result = none ∧
      (execute b).errorMessage ≠ "" := by
  have hne : ∀ m : String, "Execution failed: " ++ m ≠ "" := by
    intro m hc
    have hlen : ("Execution failed: " ++ m).length = 0 := by rw [hc]; rfl
    rw [String.length_append] at hlen
    have h18 : ("Execution failed: ").length = 18 := rfl
    omega
  cases b with
  | loadFailure msg => exact ⟨rfl, rfl, hne msg⟩
  | missingMain =>
    exact ⟨rfl, rfl,
      hne "Generated code does not contain a main() function"⟩
  | mainRaises msg => exact ⟨rfl, rfl, hne msg⟩
  | returnsNonTable =>
    exact ⟨rfl, rfl, hne "main() function did not return a DataFrame"⟩
  | returnsTable df => simp [ProgramBehavior.producesTable] at h

/-- Witness for C2: a program lacking the main entry point yields the
failure outcome. -/
theorem execute_failure_contained_witness :
    ProgramBehavior.missingMain.producesTable = false ∧
    ((execute .missingMain).success = false ∧
      (execute .missingMain).result = none ∧
      (execute .missingMain).errorMessage ≠ "") :=
  ⟨rfl, execute_failure_contained .missingMain rfl⟩

/-- C5: two numeric cell values match exactly when their absolute
difference is at most the absolute tolerance 1e-6; a pair with a
non-numeric member matches exactly when the two values are structurally
equal; 1.0000001 matches 1.0000000 while 1.1 does not match 1.0. -/
theorem values_match_tolerance (v1 v2 : Value) :
    (v1.isNumeric = true → v2.isNumeric = true →
      (valuesMatch v1 v2 = true ↔ |v1.toRat - v2.toRat| ≤ 1/1000000)) ∧
    (¬(v1.isNumeric = true ∧ v2.isNumeric = true) →
      (valuesMatch v1 v2 = true ↔ v1 = v2)) ∧
    valuesMatch (.vFloat (10000001/10000000)) (.vFloat 1) = true ∧
    valuesMatch (.vFloat (11/10)) (.vFloat 1) = false := by
  refine ⟨?_, ?_,
    by norm_num [valuesMatch, Value.sameType, Value.isNumeric, Value.toRat,
      abs_le],
    by norm_num [valuesMatch, Value.sameType, Value.isNumeric, Value.toRat,
      abs_le]⟩
  · intro h1 h2
    cases v1 <;> cases v2 <;>
      simp_all [valuesMatch, Value.isNumeric, Value.sameType]
  · intro h
    cases v1 <;> cases v2 <;>
      simp_all [valuesMatch, Value.isNumeric, Value.sameType]

/-- Witness for C5 at the numeric pair (1, 1). -/
theorem values_match_tolerance_witness :
    (Value.vFloat 1).isNumeric = true ∧
    (valuesMatch (.vFloat 1) (.vFloat 1) = true ↔
      |(Value.vFloat 1).toRat - (Value.vFloat 1).toRat| ≤ 1/1000000) :=
  ⟨rfl, (values_match_tolerance (.vFloat 1) (.vFloat 1)).1 rfl rfl⟩

/-- C8 counterexample: a corrupted pattern record makes the lookup
raise (load_json propagates) instead of being treated as a miss, so a
corrupted record does abort the enclosing job. -/
theorem find_similar_pattern_corrupt_raises :
    findSimilarPattern [.corrupt] (some "grid") (some "financial") =
      .error "failed to load pattern record" := rfl

/-- C8 as amended: over a store with no corrupted record, lookup never
raises; it returns a pattern exactly when some stored pattern has
layout_type and fact_type both exactly equal to the query; on a miss it
returns none and leaves the store unchanged; on a hit the returned
pattern is a stored pattern with its usage_count incremented, and the
incremented record is persisted in the post-call store. -/
theorem find_similar_pattern_exact_match (store : List PatternRecord)
    (newLayout newFact : Option String)
    (hclean : PatternRecord.corrupt ∉ store) :
    ∃ result store',
      findSimilarPattern store newLayout newFact = .ok (result, store') ∧
      ((∃ p', result = some p') ↔
        ∃ p, PatternRecord.ok p ∈ store ∧ p.layout_type = newLayout ∧
          p.fact_type = newFact) ∧
      (result = none → store' = store) ∧
      (∀ p', result = some p' →
        ∃ p, PatternRecord.ok p ∈ store ∧ p.layout_type = newLayout ∧
          p.fact_type = newFact ∧
          p' = { p with usage_count := p.usage_count + 1 } ∧
          PatternRecord.ok p' ∈ store') := by
  unfold findSimilarPattern
  induction store with
  | nil =>
    refine ⟨none, [], rfl, ?_, fun _ => rfl, ?_⟩
    · constructor
      · rintro ⟨p', hp'⟩; exact Option.noConfusion hp'
      · rintro ⟨p, hp, -, -⟩; exact absurd hp (List.not_mem_nil _)
    · intro p' hp'; exact Option.noConfusion hp'
  | cons rec rest ih =>
    have hrec : rec ≠ .corrupt := fun hr => hclean (hr ▸ List.mem_cons_self rec rest)
    have hrest : PatternRecord.corrupt ∉ rest := fun hr => hclean (List.mem_cons_of_mem rec hr)
    cases rec with
    | corrupt => exact absurd rfl hrec
    | ok p =>
      by_cases hmatch : p.layout_type = newLayout ∧ p.fact_type = newFact
      · refine ⟨some { p with usage_count := p.usage_count + 1 },
          .ok { p with usage_count := p.usage_count + 1 } :: rest,
          ?_, ?_, ?_, ?_⟩
        · simp only [findSimilarPatternAux, if_pos hmatch]
        · constructor
          · intro _
            exact ⟨p, List.mem_cons_self _ _, hmatch.1, hmatch.2⟩
          · intro _; exact ⟨_, rfl⟩
        · intro hc; cases hc
        · intro p' hp'
          refine ⟨p, List.mem_cons_self _ _, hmatch.1, hmatch.2, ?_, ?_⟩
          · cases hp'; rfl
          · cases hp'; exact List.mem_cons_self _ _
      · obtain ⟨result, rest', hok, hiff, hnone, hsome⟩ := ih hrest
        refine ⟨result, .ok p :: rest', ?_, ?_, ?_, ?_⟩
        · simp only [findSimilarPatternAux, if_neg hmatch, hok]
        · constructor
          · intro hex
            obtain ⟨q, hqmem, hql, hqf⟩ := hiff.mp hex
            exact ⟨q, List.mem_cons_of_mem _ hqmem, hql, hqf⟩
          · intro ⟨q, hqmem, hql, hqf⟩
            rcases List.mem_cons.mp hqmem with hq | hq
            · cases hq; exact absurd ⟨hql, hqf⟩ hmatch
            · exact hiff.mpr ⟨q, hq, hql, hqf⟩
        · intro hres
          rw [hnone hres]
        · intro p' hp'
          obtain ⟨q, hqmem, hql, hqf, hinc, hmem'⟩ := hsome p' hp'
          exact ⟨q, List.mem_cons_of_mem _ hqmem, hql, hqf, hinc,
            List.mem_cons_of_mem _ hmem'⟩

/-- Witness for C8 as amended: a clean one-record store hit on the
exact signature (grid, financial). -/
theorem find_similar_pattern_exact_match_witness :
    PatternRecord.corrupt ∉ [PatternRecord.ok pDemo] ∧
    ∃ result store',
      findSimilarPattern [.ok pDemo] (some "grid") (some "financial") =
        .ok (result, store') ∧
      ((∃ p', result = some p') ↔
        ∃ p, PatternRecord.ok p ∈ [PatternRecord.ok pDemo] ∧
          p.layout_type = some "grid" ∧ p.fact_type = some "financial") ∧
      (result = none → store' = [PatternRecord.ok pDemo]) ∧
      (∀ p', result = some p' →
        ∃ p, PatternRecord.ok p ∈ [PatternRecord.ok pDemo] ∧
          p.layout_type = some "grid" ∧ p.fact_type = some "financial" ∧
          p' = { p with usage_count := p.usage_count + 1 } ∧
          PatternRecord.ok p' ∈ store') :=
  ⟨by decide,
    find_similar_pattern_exact_match [.ok pDemo] (some "grid")
      (some "financial") (by decide)⟩

/-- A nonempty list is not isEmpty. -/
theorem isEmpty_false_of_ne_nil {α : Type} {l : List α} (h : l ≠ []) :
    l.isEmpty = false := by
  cases l with
  | nil => exact absurd rfl h
  | cons a l => rfl

/-- A schema pass forces equal column sequences. -/
theorem validateSchema_columns_eq (g t : DataFrame)
    (h : (validateSchema g t).1 = true) : g.columns = t.columns := by
  by_cases hc : g.columns = t.columns
  · exact hc
  · exfalso
    simp only [validateSchema] at h
    rw [if_neg hc] at h
    simp at h

/-- Distinct column sequences fail the schema check. -/
theorem validateSchema_fail_of_columns_ne (g t : DataFrame)
    (h : g.columns ≠ t.columns) : (validateSchema g t).1 = false := by
  simp only [validateSchema]
  rw [if_neg h]
  simp

/-- A column of the truth frame on which the dtype loop appends an
error makes the schema check fail. -/
theorem validateSchema_fail_of_type_error (g t : DataFrame) (col : String)
    (hmem : col ∈ t.columns) (hcte : columnTypeError g t col = true) :
    (validateSchema g t).1 = false := by
  simp only [validateSchema]
  apply isEmpty_false_of_ne_nil
  intro hnil
  have h2 := (List.append_eq_nil.mp hnil).2
  rw [List.map_eq_nil_iff] at h2
  have hin : col ∈ t.columns.filter (columnTypeError g t) :=
    List.mem_filter.mpr ⟨hmem, hcte⟩
  rw [h2] at hin
  exact absurd hin (List.not_mem_nil _)

/-- A numeric dtype against a non-numeric dtype on a column present in
both frames is a type error. -/
theorem columnTypeError_of_num_vs_str (g t : DataFrame) (col : String)
    (hg : col ∈ g.columns) (e a : Dtype)
    (he : t.dtypeOf? col = some e) (ha : g.dtypeOf? col = some a)
    (hne : e.isNumeric = true) (hna : a.isNumeric = false) :
    columnTypeError g t col = true := by
  have hea : e ≠ a := by
    intro heq
    subst heq
    rw [hne] at hna
    exact Bool.noConfusion hna
  unfold columnTypeError
  rw [if_pos (List.elem_eq_true_of_mem hg), he, ha]
  simp [hne, hna, hea]

/-- A failing schema check makes validate return the schema-failure
report for the computed error list, performing no value comparison. -/
theorem validate_eq_of_schema_fail (threshold : Rat) (g t : DataFrame)
    (hs : (validateSchema g t).1 = false) :
    validate threshold g t =
      some (schemaFailureReport (validateSchema g t).2) := by
  simp [validate, hs]

/-- A passing schema check together with a completed value comparison
determines the report validate returns. -/
theorem validate_eq_of_schema_ok (threshold : Rat) (g t : DataFrame)
    (accuracy : Rat) (mismatches : List Mismatch)
    (hs : (validateSchema g t).1 = true)
    (hc : compareValues g t = some (accuracy, mismatches)) :
    validate threshold g t =
      some (successPathReport true (g.rows.length == t.rows.length)
        threshold accuracy t.rows.length g.rows.length mismatches) := by
  simp [validate, hs, hc]

/-- C3: whenever validate returns a report, its passed field is true
exactly when the schema matched, the row counts matched exactly, and
the value accuracy reached the threshold; moreover a schema pass always
records the row-count verdict and the full value comparison (the
row-count check does not short-circuit value comparison). -/
theorem validate_passed_iff (threshold : Rat) (g t : DataFrame)
    (r : ValidationReport) (h : validate threshold g t = some r) :
    (r.passed = true ↔
      r.schema_match = true ∧ r.row_count_match = some true ∧
        threshold ≤ r.value_accuracy) ∧
    (r.schema_match = true →
      r.row_count_match = some (g.rows.length == t.rows.length) ∧
      ∃ ms, compareValues g t = some (r.value_accuracy, ms) ∧
        r.mismatches_count = some ms.length ∧
        r.mismatches_sample = some (ms.take 20)) := by
  by_cases hs : (validateSchema g t).1 = true
  · cases hc : compareValues g t with
    | none =>
      rw [validate, if_pos hs, hc] at h
      exact Option.noConfusion h
    | some p =>
      obtain ⟨accuracy, mismatches⟩ := p
      rw [validate_eq_of_schema_ok threshold g t accuracy mismatches hs hc]
        at h
      injection h with h
      subst h
      constructor
      · simp [successPathReport]
      · intro _
        refine ⟨rfl, mismatches, ?_, rfl, rfl⟩
        simp only [successPathReport]
  · have hs' : (validateSchema g t).1 = false := by
      cases hb : (validateSchema g t).1
      · rfl
      · exact absurd hb hs
    rw [validate_eq_of_schema_fail threshold g t hs'] at h
    injection h with h
    subst h
    constructor
    · simp [schemaFailureReport]
    · intro hsm
      simp [schemaFailureReport] at hsm

/-- Witness for C3 at a one-cell frame validated against itself. -/
theorem validate_passed_iff_witness :
    validate (99/100) dfUnit dfUnit = some rUnit ∧
    (rUnit.passed = true ↔
      rUnit.schema_match = true ∧ rUnit.row_count_match = some true ∧
        (99/100 : Rat) ≤ rUnit.value_accuracy) := by
  have h : validate (99/100) dfUnit dfUnit = some rUnit := by
    norm_num [validate, validateSchema, columnTypeError, DataFrame.dtypeOf?,
      DataFrame.colIdx?, DataFrame.cell?, compareValues, compareRowRange,
      compareCells, valuesMatch, calculateDifference, Value.sameType,
      Value.isNumeric, Value.isna, Value.toRat, Dtype.isNumeric,
      successPathReport, dfUnit, rUnit, List.range_succ, abs_le]
  exact ⟨h, (validate_passed_iff (99/100) dfUnit dfUnit rUnit h).1⟩

/-- Column-sequence-equal frames whose per-column dtypes are equal or
jointly numeric pass the schema check. -/
theorem validateSchema_ok_of_compatible (g t : DataFrame)
    (hcols : g.columns = t.columns)
    (hdt : ∀ col ∈ t.columns, ∀ e a, t.dtypeOf? col = some e →
      g.dtypeOf? col = some a →
      e = a ∨ e.isNumeric = true ∧ a.isNumeric = true) :
    (validateSchema g t).1 = true := by
  simp only [validateSchema]
  rw [if_pos hcols]
  have hfilter : t.columns.filter (columnTypeError g t) = [] := by
    rw [List.filter_eq_nil_iff]
    intro col hcol
    have hfalse : columnTypeError g t col = false := by
      unfold columnTypeError
      by_cases hcont : g.columns.contains col = true
      · rw [if_pos hcont]
        cases he : t.dtypeOf? col with
        | none => rfl
        | some e =>
          cases ha : g.dtypeOf? col with
          | none => rfl
          | some a =>
            rcases hdt col hcol e a he ha with heq | ⟨h1, h2⟩
            · subst heq
              by_cases hnum : e.isNumeric = true
              · simp [hnum]
              · rw [Bool.not_eq_true] at hnum
                simp [hnum]
            · simp [h1, h2]
      · rw [if_neg hcont]
    simp [hfalse]
  rw [hfilter]
  rfl

/-- C4: a result frame whose column sequence differs from the
reference's (any reordering included) yields the schema-failure report:
passed false, value_accuracy 0.0, and no cell-level comparison (the
output is independent of the cell contents of both frames); a
numeric-vs-non-numeric dtype on a shared column likewise yields the
schema-failure report even with equal column sequences; drift between
two numeric dtypes (integer vs floating point) alone is not a schema
error. -/
theorem schema_gate (threshold : Rat) :
    (∀ g t, g.columns ≠ t.columns →
      validate threshold g t =
        some (schemaFailureReport (validateSchema g t).2)) ∧
    (∀ (cols1 : List String) (dts1 : List Dtype)
      (rows1 rows1' : List (List Value)) (cols2 : List String)
      (dts2 : List Dtype) (rows2 rows2' : List (List Value)),
      cols1 ≠ cols2 →
      validate threshold ⟨cols1, dts1, rows1⟩ ⟨cols2, dts2, rows2⟩ =
        validate threshold ⟨cols1, dts1, rows1'⟩ ⟨cols2, dts2, rows2'⟩) ∧
    (∀ g t col e a, col ∈ t.columns → col ∈ g.columns →
      t.dtypeOf? col = some e → g.dtypeOf? col = some a →
      e.isNumeric = true → a.isNumeric = false →
      validate threshold g t =
        some (schemaFailureReport (validateSchema g t).2)) ∧
    (∀ g t, g.columns = t.columns →
      (∀ col ∈ t.columns, ∀ e a, t.dtypeOf? col = some e →
        g.dtypeOf? col = some a →
        e = a ∨ e.isNumeric = true ∧ a.isNumeric = true) →
      (validateSchema g t).1 = true) := by
  refine ⟨?_, ?_, ?_, ?_⟩
  · intro g t hne
    exact validate_eq_of_schema_fail threshold g t
      (validateSchema_fail_of_columns_ne g t hne)
  · intro cols1 dts1 rows1 rows1' cols2 dts2 rows2 rows2' hne
    have hA := validate_eq_of_schema_fail threshold
      ⟨cols1, dts1, rows1⟩ ⟨cols2, dts2, rows2⟩
      (validateSchema_fail_of_columns_ne _ _ hne)
    have hB := validate_eq_of_schema_fail threshold
      ⟨cols1, dts1, rows1'⟩ ⟨cols2, dts2, rows2'⟩
      (validateSchema_fail_of_columns_ne _ _ hne)
    rw [hA, hB]
    exact rfl
  · intro g t col e a hmt hmg he ha hnume hnuma
    exact validate_eq_of_schema_fail threshold g t
      (validateSchema_fail_of_type_error g t col hmt
        (columnTypeError_of_num_vs_str g t col hmg e a he ha hnume hnuma))
  · intro g t hcols hdt
    exact validateSchema_ok_of_compatible g t hcols hdt

/-- Witness for C4: reordered columns y,x against x,y fail the schema
check with the schema-failure report. -/
theorem schema_gate_witness :
    dfYX.columns ≠ dfXY.columns ∧
    validate (99/100) dfYX dfXY =
      some (schemaFailureReport (validateSchema dfYX dfXY).2) := by
  have hne : dfYX.columns ≠ dfXY.columns := by decide
  exact ⟨hne, (schema_gate (99/100)).1 dfYX dfXY hne⟩

/-- C6: on the schema-pass path the report samples exactly the first 20
mismatches of the row-major, column-order traversal, its length is
min(mismatch count, 20), the full mismatch count is recorded, and the
accuracy is the one computed over all compared cells, unaffected by the
truncation. -/
theorem mismatch_sample_first_twenty (threshold : Rat) (g t : DataFrame)
    (accuracy : Rat) (mismatches : List Mismatch)
    (hschema : (validateSchema g t).1 = true)
    (hcompare : compareValues g t = some (accuracy, mismatches)) :
    ∃ r, validate threshold g t = some r ∧
      r.mismatches_sample = some (mismatches.take 20) ∧
      r.mismatches_count = some mismatches.length ∧
      (mismatches.take 20).length = min mismatches.length 20 ∧
      r.value_accuracy = accuracy := by
  refine ⟨_,
    validate_eq_of_schema_ok threshold g t accuracy mismatches hschema
      hcompare, rfl, rfl, ?_, rfl⟩
  rw [List.length_take]
  exact Nat.min_comm 20 mismatches.length

/-- Witness for C6 on a one-cell frame with a single mismatch. -/
theorem mismatch_sample_first_twenty_witness :
    (validateSchema dfUnit dfFive).1 = true ∧
    compareValues dfUnit dfFive = some (0, [mFive]) ∧
    (∃ r, validate (99/100) dfUnit dfFive = some r ∧
      r.mismatches_sample = some ([mFive].take 20) ∧
      r.mismatches_count = some [mFive].length ∧
      ([mFive].take 20).length = min [mFive].length 20 ∧
      r.value_accuracy = 0) := by
  have h1 : (validateSchema dfUnit dfFive).1 = true := by decide
  have h2 : compareValues dfUnit dfFive = some (0, [mFive]) := by
    norm_num [compareValues, compareRowRange, compareCells, DataFrame.cell?,
      DataFrame.colIdx?, valuesMatch, calculateDifference, Value.sameType,
      Value.isNumeric, Value.isna, Value.toRat, dfUnit, dfFive, mFive,
      List.range_succ, abs_le]
  exact ⟨h1, h2,
    mismatch_sample_first_twenty (99/100) dfUnit dfFive 0 [mFive] h1 h2⟩

/-- Every mismatch recorded by the cell scan of one row carries the
difference computed by calculateDifference on its actual (generated)
and expected (truth) values, in that argument order. -/
theorem compareCells_difference (df1 df2 : DataFrame) (idx : Nat) :
    ∀ (cols : List String) (matching : Nat) (ms : List Mismatch),
      compareCells df1 df2 idx cols = some (matching, ms) →
      ∀ m ∈ ms, m.difference = calculateDifference m.actual m.expected := by
  intro cols
  induction cols with
  | nil =>
    intro matching ms h m hm
    simp only [compareCells] at h
    cases h
    exact absurd hm (List.not_mem_nil m)
  | cons col cols ih =>
    intro matching ms h m hm
    simp only [compareCells] at h
    cases h1 : df1.cell? idx col with
    | none => rw [h1] at h; exact Option.noConfusion h
    | some val1 =>
      cases h2 : df2.cell? idx col with
      | none => simp only [h1, h2] at h; exact Option.noConfusion h
      | some val2 =>
        simp only [h1, h2] at h
        cases h3 : compareCells df1 df2 idx cols with
        | none => simp only [h3] at h; exact Option.noConfusion h
        | some p =>
          obtain ⟨mtch, ms1⟩ := p
          simp only [h3] at h
          split_ifs at h with hna hmatch
          · simp only [Option.some.injEq, Prod.mk.injEq] at h
            obtain ⟨-, hB⟩ := h
            subst hB
            exact ih mtch ms1 h3 m hm
          · simp only [Option.some.injEq, Prod.mk.injEq] at h
            obtain ⟨-, hB⟩ := h
            subst hB
            exact ih mtch ms1 h3 m hm
          · simp only [Option.some.injEq, Prod.mk.injEq] at h
            obtain ⟨-, hB⟩ := h
            subst hB
            rcases List.mem_cons.mp hm with hm | hm
            · subst hm
              rfl
            · exact ih mtch ms1 h3 m hm

/-- Every mismatch recorded by the row scan carries the difference
computed by calculateDifference on its actual and expected values. -/
theorem compareRowRange_difference (df1 df2 : DataFrame) :
    ∀ (idxs : List Nat) (matching : Nat) (ms : List Mismatch),
      compareRowRange df1 df2 idxs = some (matching, ms) →
      ∀ m ∈ ms, m.difference = calculateDifference m.actual m.expected := by
  intro idxs
  induction idxs with
  | nil =>
    intro matching ms h m hm
    simp only [compareRowRange] at h
    cases h
    exact absurd hm (List.not_mem_nil m)
  | cons idx rest ih =>
    intro matching ms h m hm
    simp only [compareRowRange] at h
    cases hc : compareCells df1 df2 idx df1.columns with
    | none => simp only [hc] at h; exact Option.noConfusion h
    | some p1 =>
      obtain ⟨m1, ms1⟩ := p1
      cases hr : compareRowRange df1 df2 rest with
      | none => simp only [hc, hr] at h; exact Option.noConfusion h
      | some p2 =>
        obtain ⟨m2, ms2⟩ := p2
        simp only [hc, hr] at h
        cases h
        rcases List.mem_append.mp hm with hmem | hmem
        · exact compareCells_difference df1 df2 idx df1.columns m1 ms1 hc
            m hmem
        · exact ih m2 ms2 hr m hmem

/-- Every mismatch recorded by _compare_values carries the difference
computed by calculateDifference on its actual and expected values. -/
theorem compareValues_difference (g t : DataFrame) (accuracy : Rat)
    (mismatches : List Mismatch)
    (hc : compareValues g t = some (accuracy, mismatches)) :
    ∀ m ∈ mismatches,
      m.difference = calculateDifference m.actual m.expected := by
  simp only [compareValues] at hc
  cases hr : compareRowRange g t (List.range g.rows.length) with
  | none => rw [hr] at hc; exact Option.noConfusion hc
  | some p =>
    obtain ⟨mtch, ms⟩ := p
    simp only [hr, Option.some.injEq, Prod.mk.injEq] at hc
    obtain ⟨-, hb⟩ := hc
    subst hb
    intro m hm
    exact compareRowRange_difference g t _ mtch ms hr m hm

/-- The comparison of g7 (generated float 1) against t7 (truth float
3) records one mismatch with difference -2. -/
theorem compareValues_g7_t7 : compareValues g7 t7 = some (0, [m7]) := by
  norm_num [compareValues, compareRowRange, compareCells, DataFrame.cell?,
    DataFrame.colIdx?, valuesMatch, calculateDifference, Value.sameType,
    Value.isNumeric, Value.isna, Value.toRat, g7, t7, m7,
    List.range_succ, abs_le]

/-- C7 counterexample: a recorded mismatch with both sides numeric
(expected 3.0, actual 1.0) carries difference -2, which is actual minus
expected; the claimed convention expected minus actual would give 2. -/
theorem mismatch_difference_counterexample :
    compareValues g7 t7 = some (0, [m7]) ∧
    m7.expected = Value.vFloat 3 ∧ m7.actual = Value.vFloat 1 ∧
    m7.expected.isNumeric = true ∧ m7.actual.isNumeric = true ∧
    m7.difference = some (-2) ∧
    m7.expected.toRat - m7.actual.toRat = 2 ∧
    m7.difference ≠ some (m7.expected.toRat - m7.actual.toRat) := by
  refine ⟨compareValues_g7_t7, rfl, rfl, rfl, rfl, rfl, ?_, ?_⟩
  · norm_num [m7, Value.toRat]
  · norm_num [m7, Value.toRat]

/-- C7 as amended: for every recorded mismatch whose expected and
actual values are both numeric, the recorded numeric difference equals
actual minus expected (val1 - val2 in source order, where val1 is the
generated value); when at least one side is non-numeric the recorded
difference is null. -/
theorem mismatch_difference_signed (g t : DataFrame) (accuracy : Rat)
    (mismatches : List Mismatch) (m : Mismatch)
    (hc : compareValues g t = some (accuracy, mismatches))
    (hm : m ∈ mismatches) :
    (m.actual.isNumeric = true → m.expected.isNumeric = true →
      m.difference = some (m.actual.toRat - m.expected.toRat)) ∧
    (¬(m.actual.isNumeric = true ∧ m.expected.isNumeric = true) →
      m.difference = none) := by
  have hd := compareValues_difference g t accuracy mismatches hc m hm
  constructor
  · intro h1 h2
    rw [hd]
    unfold calculateDifference
    simp [h1, h2]
  · intro hnot
    rw [hd]
    unfold calculateDifference
    have hfalse : (m.actual.isNumeric && m.expected.isNumeric) = false := by
      cases ha : m.actual.isNumeric <;> cases he : m.expected.isNumeric <;>
        simp_all
    simp [hfalse]

/-- Witness for C7 as amended, at the mismatch recorded for g7 vs
t7. -/
theorem mismatch_difference_signed_witness :
    compareValues g7 t7 = some (0, [m7]) ∧ m7 ∈ [m7] ∧
    ((m7.actual.isNumeric = true → m7.expected.isNumeric = true →
      m7.difference = some (m7.actual.toRat - m7.expected.toRat)) ∧
    (¬(m7.actual.isNumeric = true ∧ m7.expected.isNumeric = true) →
      m7.difference = none)) :=
  ⟨compareValues_g7_t7, List.mem_singleton.mpr rfl,
    mismatch_difference_signed g7 t7 0 [m7] m7 compareValues_g7_t7
      (List.mem_singleton.mpr rfl)⟩

/-- get? into an append that stays within the first list. -/
theorem get?_append_left {α : Type} {l1 : List α} (l2 : List α) {n : Nat}
    (h : n < l1.length) : (l1 ++ l2).get? n = l1.get? n := by
  induction l1 generalizing n with
  | nil => exact absurd h (Nat.not_lt_zero n)
  | cons a l1 ih =>
    cases n with
    | zero => rfl
    | succ n => exact ih (Nat.lt_of_succ_lt_succ h)

/-- A Bool that is not true is false. -/
theorem bool_eq_false {b : Bool} (h : ¬ b = true) : b = false := by
  cases b
  · rfl
  · exact absurd rfl h

/-- findIdx? succeeds on a member, with an in-bounds index. -/
theorem findIdx_of_mem (l : List String) (col : String) (h : col ∈ l) :
    ∃ j, l.findIdx? (· = col) = some j ∧ j < l.length := by
  induction l with
  | nil => exact absurd h (List.not_mem_nil col)
  | cons c cs ih =>
    rw [List.findIdx?_cons]
    by_cases hc : c = col
    · exact ⟨0, by simp [hc], Nat.succ_pos _⟩
    · have hmem : col ∈ cs := by
        rcases List.mem_cons.mp h with h | h
        · exact absurd h.symm hc
        · exact h
      obtain ⟨j, hj, hjl⟩ := ih hmem
      refine ⟨j + 1, ?_, by simpa using Nat.succ_lt_succ hjl⟩
      simp [hc, hj]

/-- A cell lookup succeeds on a well-formed frame for a present column
and an in-range row index. -/
theorem cell?_isSome (df : DataFrame) (idx : Nat) (col : String)
    (hwf : df.WellFormed) (hcol : col ∈ df.columns)
    (hidx : idx < df.rows.length) : ∃ v, df.cell? idx col = some v := by
  obtain ⟨j, hj, hjl⟩ := findIdx_of_mem df.columns col hcol
  obtain ⟨row, hrow⟩ : ∃ row, df.rows.get? idx = some row :=
    ⟨df.rows.get ⟨idx, hidx⟩, List.get?_eq_get hidx⟩
  have hrowmem : row ∈ df.rows := List.get?_mem hrow
  have hrlen : row.length = df.columns.length := hwf.2 row hrowmem
  have hjr : j < row.length := by rw [hrlen]; exact hjl
  refine ⟨row.get ⟨j, hjr⟩, ?_⟩
  unfold DataFrame.cell? DataFrame.colIdx?
  rw [hj, hrow]
  exact List.get?_eq_get hjr

/-- The cell scan of one row succeeds when every lookup succeeds. -/
theorem compareCells_total (df1 df2 : DataFrame) (idx : Nat) :
    ∀ cols : List String,
      (∀ col ∈ cols,
        (df1.cell? idx col).isSome ∧ (df2.cell? idx col).isSome) →
      ∃ x, compareCells df1 df2 idx cols = some x := by
  intro cols
  induction cols with
  | nil => exact fun _ => ⟨(0, []), rfl⟩
  | cons col cols ih =>
    intro hall
    obtain ⟨hs1, hs2⟩ := hall col (List.mem_cons_self _ _)
    obtain ⟨v1, hv1⟩ := Option.isSome_iff_exists.mp hs1
    obtain ⟨v2, hv2⟩ := Option.isSome_iff_exists.mp hs2
    obtain ⟨⟨mtch, ms⟩, hrec⟩ :=
      ih (fun c hc => hall c (List.mem_cons_of_mem _ hc))
    simp only [compareCells, hv1, hv2, hrec]
    split_ifs <;> exact ⟨_, rfl⟩

/-- The row scan succeeds when every row's cell scan succeeds. -/
theorem compareRowRange_total (df1 df2 : DataFrame) :
    ∀ idxs : List Nat,
      (∀ idx ∈ idxs, ∃ x, compareCells df1 df2 idx df1.columns = some x) →
      ∃ y, compareRowRange df1 df2 idxs = some y := by
  intro idxs
  induction idxs with
  | nil => exact fun _ => ⟨(0, []), rfl⟩
  | cons idx rest ih =>
    intro hall
    obtain ⟨⟨m1, ms1⟩, h1⟩ := hall idx (List.mem_cons_self _ _)
    obtain ⟨⟨m2, ms2⟩, h2⟩ :=
      ih (fun i hi => hall i (List.mem_cons_of_mem _ hi))
    exact ⟨(m1 + m2, ms1 ++ ms2), by simp only [compareRowRange, h1, h2]⟩

/-- C9 counterexample: two schema-matching frames on which validate
produces no report at all: the generated frame has a row label (1)
absent from the reference, the reference lookup raises, and the
exception propagates out of validate. -/
theorem validate_raises_on_extra_rows :
    validateSchema g9 t9 = (true, []) ∧
    g9.rows.length = 2 ∧ t9.rows.length = 1 ∧
    validate (99/100) g9 t9 = none := by
  refine ⟨by decide, rfl, rfl, ?_⟩
  norm_num [validate, validateSchema, columnTypeError, DataFrame.dtypeOf?,
    DataFrame.colIdx?, DataFrame.cell?, compareValues, compareRowRange,
    compareCells, valuesMatch, calculateDifference, Value.sameType,
    Value.isNumeric, Value.isna, Value.toRat, Dtype.isNumeric, g9, t9,
    List.range_succ, abs_le]

/-- C9 as amended: for well-formed input frames, validate is a total
pure function returning exactly one report per call whenever every row
index of the generated frame is present in the reference frame — in
particular whenever the generated frame has at most as many rows as the
reference — including when the row counts differ in that direction. -/
theorem validate_total_on_covered_rows (threshold : Rat) (g t : DataFrame)
    (hg : g.WellFormed) (ht : t.WellFormed)
    (hrows : g.rows.length ≤ t.rows.length) :
    ∃ r, validate threshold g t = some r := by
  by_cases hs : (validateSchema g t).1 = true
  · have hcols := validateSchema_columns_eq g t hs
    have hcc : ∀ idx ∈ List.range g.rows.length,
        ∃ x, compareCells g t idx g.columns = some x := by
      intro idx hidx
      rw [List.mem_range] at hidx
      apply compareCells_total
      intro col hcol
      constructor
      · obtain ⟨v, hv⟩ := cell?_isSome g idx col hg hcol hidx
        simp [hv]
      · obtain ⟨v, hv⟩ := cell?_isSome t idx col ht (hcols ▸ hcol)
          (lt_of_lt_of_le hidx hrows)
        simp [hv]
    obtain ⟨⟨mtch, ms⟩, hrr⟩ :=
      compareRowRange_total g t (List.range g.rows.length) hcc
    cases hres : compareValues g t with
    | none =>
      exfalso
      simp only [compareValues, hrr] at hres
      exact Option.noConfusion hres
    | some p =>
      obtain ⟨acc, ms2⟩ := p
      exact ⟨_, validate_eq_of_schema_ok threshold g t acc ms2 hs hres⟩
  · exact ⟨_, validate_eq_of_schema_fail threshold g t (bool_eq_false hs)⟩

/-- Witness for C9 as amended: a one-row frame validated against a
two-row reference with the same schema yields a report. -/
theorem validate_total_on_covered_rows_witness :
    t9.WellFormed ∧ g9.WellFormed ∧ t9.rows.length ≤ g9.rows.length ∧
    ∃ r, validate (99/100) t9 g9 = some r := by
  have h1 : t9.WellFormed := ⟨by decide, by decide⟩
  have h2 : g9.WellFormed := ⟨by decide, by decide⟩
  have h3 : t9.rows.length ≤ g9.rows.length := by decide
  exact ⟨h1, h2, h3,
    validate_total_on_covered_rows (99/100) t9 g9 h1 h2 h3⟩

/-- Appending rows to the truth frame leaves a succeeding cell lookup
unchanged. -/
theorem cell?_append (t : DataFrame) (extra : List (List Value))
    (idx : Nat) (col : String) (v : Value)
    (h : t.cell? idx col = some v) :
    DataFrame.cell? { t with rows := t.rows ++ extra } idx col = some v := by
  unfold DataFrame.cell? DataFrame.colIdx? at h ⊢
  cases hj : t.columns.findIdx? (· = col) with
  | none => rw [hj] at h; exact Option.noConfusion h
  | some j =>
    rw [hj] at h
    cases hr : t.rows.get? idx with
    | none => rw [hr] at h; exact Option.noConfusion h
    | some row =>
      rw [hr] at h
      have hlt : idx < t.rows.length :=
        (List.get?_eq_some.mp hr).elim fun hlen _ => hlen
      have hget : (t.rows ++ extra).get? idx = some row := by
        rw [get?_append_left extra hlt, hr]
      simp only [hj, hget]
      exact h

/-- Appending rows to the truth frame leaves a succeeding cell scan
unchanged. -/
theorem compareCells_extend (df1 t : DataFrame)
    (extra : List (List Value)) (idx : Nat) :
    ∀ (cols : List String) (x : Nat × List Mismatch),
      compareCells df1 t idx cols = some x →
      compareCells df1 { t with rows := t.rows ++ extra } idx cols =
        some x := by
  intro cols
  induction cols with
  | nil => intro x h; exact h
  | cons col cols ih =>
    intro x h
    simp only [compareCells] at h ⊢
    cases h1 : df1.cell? idx col with
    | none => rw [h1] at h; exact Option.noConfusion h
    | some v1 =>
      rw [h1] at h
      cases h2 : t.cell? idx col with
      | none => simp only [h2] at h; exact Option.noConfusion h
      | some v2 =>
        simp only [h2] at h
        cases h3 : compareCells df1 t idx cols with
        | none => simp only [h3] at h; exact Option.noConfusion h
        | some y =>
          simp only [h3] at h
          simp only [cell?_append t extra idx col v2 h2, ih y h3]
          exact h

/-- Appending rows to the truth frame leaves a succeeding row scan
unchanged. -/
theorem compareRowRange_extend (df1 t : DataFrame)
    (extra : List (List Value)) :
    ∀ (idxs : List Nat) (x : Nat × List Mismatch),
      compareRowRange df1 t idxs = some x →
      compareRowRange df1 { t with rows := t.rows ++ extra } idxs =
        some x := by
  intro idxs
  induction idxs with
  | nil => intro x h; exact h
  | cons idx rest ih =>
    intro x h
    simp only [compareRowRange] at h ⊢
    cases h1 : compareCells df1 t idx df1.columns with
    | none => rw [h1] at h; exact Option.noConfusion h
    | some y1 =>
      rw [h1] at h
      cases h2 : compareRowRange df1 t rest with
      | none => simp only [h2] at h; exact Option.noConfusion h
      | some y2 =>
        simp only [h2] at h
        simp only [compareCells_extend df1 t extra idx df1.columns y1 h1,
          ih y2 h2]
        exact h

/-- C10: the accuracy denominator is the generated frame's own cell
count: a generated frame with no cells yields value_accuracy 0; rows of
the reference beyond those visited by the generated frame's index leave
the comparison result (accuracy and mismatches) unchanged; and accuracy
1.0 can coexist with a failing row-count check. -/
theorem accuracy_denominator_result_cells (threshold : Rat) :
    (∀ g t r, g.rows.length * g.columns.length = 0 →
      validate threshold g t = some r → r.value_accuracy = 0) ∧
    (∀ (g t : DataFrame) (extra : List (List Value))
      (accuracy : Rat) (mismatches : List Mismatch),
      compareValues g t = some (accuracy, mismatches) →
      compareValues g { t with rows := t.rows ++ extra } =
        some (accuracy, mismatches)) ∧
    (∃ r, validate threshold t9 g9 = some r ∧ r.value_accuracy = 1 ∧
      r.row_count_match = some false) := by
  refine ⟨?_, ?_, ?_⟩
  · intro g t r h0 hv
    by_cases hs : (validateSchema g t).1 = true
    · cases hc : compareValues g t with
      | none =>
        rw [validate, if_pos hs, hc] at hv
        exact Option.noConfusion hv
      | some p =>
        obtain ⟨acc, ms⟩ := p
        have hacc : acc = 0 := by
          simp only [compareValues] at hc
          cases hr : compareRowRange g t (List.range g.rows.length) with
          | none => rw [hr] at hc; exact Option.noConfusion hc
          | some y =>
            obtain ⟨mtch, ms2⟩ := y
            simp only [hr, Option.some.injEq, Prod.mk.injEq] at hc
            obtain ⟨ha, -⟩ := hc
            rw [← ha, h0]
            simp
        rw [validate_eq_of_schema_ok threshold g t acc ms hs hc] at hv
        injection hv with hv
        subst hv
        simpa [successPathReport] using hacc
    · rw [validate_eq_of_schema_fail threshold g t (bool_eq_false hs)] at hv
      injection hv with hv
      subst hv
      rfl
  · intro g t extra accuracy mismatches h
    simp only [compareValues] at h ⊢
    cases hr : compareRowRange g t (List.range g.rows.length) with
    | none => rw [hr] at h; exact Option.noConfusion h
    | some y =>
      obtain ⟨mtch, ms⟩ := y
      simp only [hr] at h
      simp only [compareRowRange_extend g t extra (List.range g.rows.length)
        (mtch, ms) hr]
      exact h
  · have hs : (validateSchema t9 g9).1 = true := by decide
    have hcv : compareValues t9 g9 = some (1, []) := by
      norm_num [compareValues, compareRowRange, compareCells,
        DataFrame.cell?, DataFrame.colIdx?, valuesMatch,
        calculateDifference, Value.sameType, Value.isNumeric, Value.isna,
        Value.toRat, t9, g9, List.range_succ, abs_le]
    exact ⟨_, validate_eq_of_schema_ok threshold t9 g9 1 [] hs hcv, rfl, rfl⟩

/-- Witness for C10: a generated frame with no rows gets
value_accuracy 0 against a one-row reference. -/
theorem accuracy_denominator_result_cells_witness :
    dfEmpty.rows.length * dfEmpty.columns.length = 0 ∧
    validate (99/100) dfEmpty dfUnit = some rEmpty ∧
    rEmpty.value_accuracy = 0 := by
  have h0 : dfEmpty.rows.length * dfEmpty.columns.length = 0 := rfl
  have hv : validate (99/100) dfEmpty dfUnit = some rEmpty := by
    norm_num [validate, validateSchema, columnTypeError, DataFrame.dtypeOf?,
      DataFrame.colIdx?, DataFrame.cell?, compareValues, compareRowRange,
      compareCells, valuesMatch, calculateDifference, Value.sameType,
      Value.isNumeric, Value.isna, Value.toRat, Dtype.isNumeric,
      successPathReport, dfEmpty, dfUnit, rEmpty, List.range_succ, abs_le]
  exact ⟨h0, hv,
    (accuracy_denominator_result_cells (99/100)).1 dfEmpty dfUnit rEmpty
      h0 hv⟩

end ExcelPipeline
